import Mathlib

/-!
Shallow embedding of the Wildfire-Watch CubeSat digital twin
(src/cubesat_wildfire_digital_twin.py and the second variant src/unnamed/part_000).

Modelling conventions:
* Temperatures are exact rationals; every comparison in the source is against an
  integer-valued threshold, so no floating-point rounding is observable here.
* A thermal grid is a function from (row, column) to temperature; the source
  grids are 64x64 and `np.where` / `np.argwhere` enumerate cells row-major.
* `np.cos(np.radians lat)` is transcendental; the geolocation function takes the
  cosine-of-degrees function as an explicit parameter `cosDeg`.
* The `"%.4f"` float formatter used by `trigger_payout` is likewise taken as a
  parameter `fmt`; no claim depends on its digits.
* The loop body of `run_simulation` is `runStep`, parameterised by the function
  `gatingSet` that produces the pixel set gating the payout: the first variant
  instantiates it with the windowed `apply_ai_noise_filter`, the second with the
  unwindowed `trigger_eligible_pixels` (its `np.argwhere(grid > 55)`). This is
  the only difference between the loop bodies of the two variants.
* Python raises on `ys, xs = zip(*fire_pixels)` for an empty list, so
  `compute_fire_location` returns `Option`, `none` on the empty set, and
  `runStep` returns `none` if that error branch were ever reached.
-/

namespace WildfireWatch

/-- CONFIGURATION constant `TEMP_THRESHOLD_CELSIUS = 45` of both variants. -/
def TEMP_THRESHOLD_CELSIUS : ℚ := 45

/-- CONFIGURATION constant `SENSOR_GSD_M = 100` (meters per pixel). -/
def SENSOR_GSD_M : ℚ := 100

/-- Instance attribute `self.fire_threshold_temp = 55.0` of the second variant. -/
def fire_threshold_temp : ℚ := 55

/-- A thermal grid: temperature in Celsius at (row, column). -/
def Grid : Type := Nat → Nat → ℚ

/-- All cell coordinates of a 64x64 grid in row-major order, the order in which
`np.where` and `np.argwhere` enumerate matches. -/
def allCells : List (Nat × Nat) :=
  (List.range 64).flatMap fun y => (List.range 64).map fun x => (y, x)

/-- Function `apply_ai_noise_filter`, with the threshold as a parameter (the
source reads the global `TEMP_THRESHOLD_CELSIUS`; see `apply_ai_noise_filter`).
First `np.where(grid > threshold)` collects the cells above the threshold, then
the list comprehension keeps those with `28 <= x <= 36 and 28 <= y <= 36`. -/
def extractAnomalies (grid : Grid) (threshold : ℚ) : List (Nat × Nat) :=
  let above := allCells.filter fun c => decide (threshold < grid c.1 c.2)
  above.filter fun c => decide (28 ≤ c.2 ∧ c.2 ≤ 36 ∧ 28 ≤ c.1 ∧ c.1 ≤ 36)

/-- Function `apply_ai_noise_filter(self, grid)` of both variants. -/
def apply_ai_noise_filter (grid : Grid) : List (Nat × Nat) :=
  extractAnomalies grid TEMP_THRESHOLD_CELSIUS

/-- The pixel set `np.argwhere(grid > self.fire_threshold_temp)` computed in the
`run_simulation` loop of the second variant: unwindowed, threshold 55. -/
def trigger_eligible_pixels (grid : Grid) : List (Nat × Nat) :=
  allCells.filter fun c => decide (fire_threshold_temp < grid c.1 c.2)

/-- Function `calculate_confidence(self, fire_pixels)` of both variants; it only
reads `len(fire_pixels)`, embedded here as the count. -/
def calculate_confidence (count : Nat) : Nat :=
  if count = 0 then 0 else min 95 (60 + count * 2)

/-- Function `analyze_burn_scar` of the second variant: the recovery message
chosen by the chain of strict comparisons on the area in hectares. -/
def recovery_estimate (area_hectares : ℚ) : String :=
  if 5 < area_hectares then "Estimated Ecosystem Recovery Time: 4–6 years"
  else if 2 < area_hectares then "Estimated Ecosystem Recovery Time: 2–4 years"
  else if 1/2 < area_hectares then "Estimated Ecosystem Recovery Time: 1–3 years"
  else "Estimated Ecosystem Recovery Time: < 1 year"

/-- Function `analyze_burn_scar(self, fire_pixels)` of the second variant.
Returns the area in square meters together with the recovery message it prints;
on an empty pixel set it returns 0 early, before any bucket is computed. -/
def analyze_burn_scar (fire_pixel_count : Nat) : ℚ × Option String :=
  if fire_pixel_count = 0 then (0, none)
  else
    let area_sq_m : ℚ := fire_pixel_count * SENSOR_GSD_M ^ 2
    let area_hectares : ℚ := area_sq_m / 10000
    (area_sq_m, some (recovery_estimate area_hectares))

/-- Function `compute_fire_location(self, fire_pixels, sat_lat, sat_lon)` of
both variants. `zip(*fire_pixels)` raises on an empty list, hence `Option`.
`cosDeg` stands for `np.cos(np.radians ·)`. -/
def compute_fire_location (fire_pixels : List (Nat × Nat)) (sat_lat sat_lon : ℚ)
    (cosDeg : ℚ → ℚ) : Option (ℚ × ℚ) :=
  match fire_pixels with
  | [] => none
  | _ :: _ =>
    let cx : ℚ := (fire_pixels.map fun p => (p.2 : ℚ)).sum / fire_pixels.length
    let cy : ℚ := (fire_pixels.map fun p => (p.1 : ℚ)).sum / fire_pixels.length
    let dx_m : ℚ := (cx - 32) * SENSOR_GSD_M
    let dy_m : ℚ := (cy - 32) * SENSOR_GSD_M
    let lat_offset : ℚ := dy_m / 111320
    let lon_offset : ℚ := dx_m / (111320 * cosDeg sat_lat)
    some (sat_lat + lat_offset, sat_lon + lon_offset)

/-- The global `dashboard_state` dictionary (the five keys of the first
variant, which are exactly the keys `trigger_payout` overwrites). -/
structure Dashboard where
  fire_detected : Bool
  latitude : String
  longitude : String
  confidence : String
  payout_status : String
deriving DecidableEq

/-- Initial value of `dashboard_state`. -/
def initial_dashboard_state : Dashboard :=
  { fire_detected := false
    latitude := "N/A"
    longitude := "N/A"
    confidence := "N/A"
    payout_status := "Not Triggered" }

/-- Function `trigger_payout(self, lat, lon, confidence)`: the
`dashboard_state.update` call, which replaces all five keys at once.
`fmt` stands for the `"%.4f"` float formatter. -/
def trigger_payout (fmt : ℚ → String) (lat lon : ℚ) (confidence : Nat) : Dashboard :=
  { fire_detected := true
    latitude := fmt lat
    longitude := fmt lon
    confidence := toString confidence ++ "%"
    payout_status := "Executed" }

/-- The state that survives across loop steps: the one-shot latch flag
`self.fire_already_reported` and the published `dashboard_state`. -/
structure TwinState where
  fire_already_reported : Bool
  dashboard : Dashboard
deriving DecidableEq

/-- State at the start of `run_simulation`: flag false, dashboard untouched. -/
def initialState : TwinState :=
  { fire_already_reported := false, dashboard := initial_dashboard_state }

/-- Per-step external inputs: the freshly captured thermal grid and the
satellite sub-point returned by `get_current_location`. -/
structure StepInput where
  grid : Grid
  sat_lat : ℚ
  sat_lon : ℚ

/-- One iteration of the `run_simulation` loop body, common to both variants:
`gatingSet inp.grid` is the pixel set whose non-emptiness and confidence gate
the payout (the windowed `apply_ai_noise_filter` result in the first variant,
the unwindowed `trigger_eligible_pixels` in the second). The returned Bool
records whether `trigger_payout` was invoked on this step; `none` marks the
unreachable empty-set geolocation error. -/
def runStep (gatingSet : Grid → List (Nat × Nat)) (fmt : ℚ → String)
    (cosDeg : ℚ → ℚ) (s : TwinState) (inp : StepInput) : Option (TwinState × Bool) :=
  let pixels := gatingSet inp.grid
  if pixels ≠ [] ∧ s.fire_already_reported = false then
    let confidence := calculate_confidence pixels.length
    if 85 ≤ confidence then
      match compute_fire_location pixels inp.sat_lat inp.sat_lon cosDeg with
      | none => none
      | some q =>
        some ({ fire_already_reported := true
                dashboard := trigger_payout fmt q.1 q.2 confidence }, true)
    else some (s, false)
  else some (s, false)

/-- The `run_simulation` loop over a list of per-step inputs (the source runs
10 steps), threading the state and recording which steps fired the payout. -/
def run_simulation (gatingSet : Grid → List (Nat × Nat)) (fmt : ℚ → String)
    (cosDeg : ℚ → ℚ) : TwinState → List StepInput → Option (TwinState × List Bool)
  | s, [] => some (s, [])
  | s, inp :: rest =>
    match runStep gatingSet fmt cosDeg s inp with
    | none => none
    | some (s', fired) =>
      match run_simulation gatingSet fmt cosDeg s' rest with
      | none => none
      | some (sf, log) => some (sf, fired :: log)

/-- Loop body of the first variant: the payout is gated by the windowed
`apply_ai_noise_filter` set (`if fires and not self.fire_already_reported`). -/
def runStepV1 (fmt : ℚ → String) (cosDeg : ℚ → ℚ) (s : TwinState)
    (inp : StepInput) : Option (TwinState × Bool) :=
  runStep apply_ai_noise_filter fmt cosDeg s inp

/-- Loop body of the second variant: the payout is gated by the unwindowed
`np.argwhere(grid > 55)` set (`if len(fire_pixels) > 0 and not
self.fire_already_reported`), which is also what it passes to
`calculate_confidence` and `compute_fire_location`. -/
def runStepV2 (fmt : ℚ → String) (cosDeg : ℚ → ℚ) (s : TwinState)
    (inp : StepInput) : Option (TwinState × Bool) :=
  runStep trigger_eligible_pixels fmt cosDeg s inp

/-- Fields the dashboard invariant tracks: the detection flag matches the
payout status, and before the latch is set the dashboard is untouched. -/
def DashboardInv (s : TwinState) : Prop :=
  (s.dashboard.fire_detected = true ↔ s.dashboard.payout_status = "Executed")
  ∧ (s.fire_already_reported = false → s.dashboard = initial_dashboard_state)

/-- Grid of the end-to-end scenario: the 8x8 block at rows 28–35, cols 28–35
holds 60 °C while every other cell stays at the 27 °C baseline. -/
def end_to_end_grid : Grid := fun y x =>
  if 28 ≤ y ∧ y ≤ 35 ∧ 28 ≤ x ∧ x ≤ 35 then 60 else 27

/-- Grid separating the two gating predicates: 13 cells at 60 °C in column 0,
rows 0–12, far outside the [28, 36] window; everything else 27 °C. -/
def divergence_grid : Grid := fun y x => if x = 0 ∧ y < 13 then 60 else 27

/-- Gating set used by concrete witnesses: 13 fixed pixels on any grid. -/
def witness_gate : Grid → List (Nat × Nat) := fun _ => (List.range 13).map fun i => (i, 0)

/-- Step input used by concrete witnesses: a uniform 27 °C grid at sub-point
(0, 0). -/
def witness_input : StepInput :=
  { grid := fun _ _ => 27, sat_lat := 0, sat_lon := 0 }

/-! Helper lemmas shared by the claim theorems. -/

/-- Membership in the row-major cell enumeration is exactly being in range. -/
lemma mem_allCells (y x : Nat) : (y, x) ∈ allCells ↔ y < 64 ∧ x < 64 := by
  simp [allCells, List.mem_flatMap, List.mem_map, List.mem_range]

/-- Membership in the extracted anomaly set, characterised. -/
lemma mem_extractAnomalies (grid : Grid) (threshold : ℚ) (y x : Nat) :
    (y, x) ∈ extractAnomalies grid threshold ↔
      threshold < grid y x ∧ 28 ≤ x ∧ x ≤ 36 ∧ 28 ≤ y ∧ y ≤ 36 := by
  rw [extractAnomalies]
  simp only [List.mem_filter, mem_allCells, decide_eq_true_eq]
  constructor
  · rintro ⟨⟨⟨hy, hx⟩, hg⟩, hw⟩
    exact ⟨hg, hw⟩
  · rintro ⟨hg, h1, h2, h3, h4⟩
    exact ⟨⟨⟨by omega, by omega⟩, hg⟩, h1, h2, h3, h4⟩

/-- Geolocation of a non-empty pixel list always succeeds. -/
lemma compute_fire_location_ne_nil {pixels : List (Nat × Nat)} (h : pixels ≠ [])
    (sat_lat sat_lon : ℚ) (cosDeg : ℚ → ℚ) :
    ∃ q, compute_fire_location pixels sat_lat sat_lon cosDeg = some q := by
  cases pixels with
  | nil => exact absurd rfl h
  | cons a l => exact ⟨_, rfl⟩

/-- Once the latch flag is set, a step changes nothing and fires no payout. -/
lemma runStep_of_reported (gatingSet : Grid → List (Nat × Nat)) (fmt : ℚ → String)
    (cosDeg : ℚ → ℚ) (s : TwinState) (inp : StepInput)
    (h : s.fire_already_reported = true) :
    runStep gatingSet fmt cosDeg s inp = some (s, false) := by
  simp [runStep, h]

/-- When the gating condition fails, a step changes nothing and fires no payout. -/
lemma runStep_no_fire (gatingSet : Grid → List (Nat × Nat)) (fmt : ℚ → String)
    (cosDeg : ℚ → ℚ) (s : TwinState) (inp : StepInput)
    (h : ¬(gatingSet inp.grid ≠ [] ∧
            85 ≤ calculate_confidence (gatingSet inp.grid).length ∧
            s.fire_already_reported = false)) :
    runStep gatingSet fmt cosDeg s inp = some (s, false) := by
  simp only [runStep]
  by_cases h1 : gatingSet inp.grid ≠ [] ∧ s.fire_already_reported = false
  · rw [if_pos h1, if_neg fun h2 => h ⟨h1.1, h2, h1.2⟩]
  · rw [if_neg h1]

/-- When the gating condition holds, a step fires the payout: it computes the
geolocation, publishes the detection through `trigger_payout` and latches. -/
lemma runStep_fires (gatingSet : Grid → List (Nat × Nat)) (fmt : ℚ → String)
    (cosDeg : ℚ → ℚ) (s : TwinState) (inp : StepInput)
    (hne : gatingSet inp.grid ≠ [])
    (hconf : 85 ≤ calculate_confidence (gatingSet inp.grid).length)
    (hrep : s.fire_already_reported = false) :
    ∃ q, compute_fire_location (gatingSet inp.grid) inp.sat_lat inp.sat_lon cosDeg = some q ∧
      runStep gatingSet fmt cosDeg s inp =
        some ({ fire_already_reported := true
                dashboard := trigger_payout fmt q.1 q.2
                  (calculate_confidence (gatingSet inp.grid).length) }, true) := by
  obtain ⟨q, hq⟩ := compute_fire_location_ne_nil hne inp.sat_lat inp.sat_lon cosDeg
  refine ⟨q, hq, ?_⟩
  simp only [runStep]
  rw [if_pos ⟨hne, hrep⟩, if_pos hconf, hq]

/-- A step never reaches the empty-set geolocation error branch. -/
lemma runStep_isSome (gatingSet : Grid → List (Nat × Nat)) (fmt : ℚ → String)
    (cosDeg : ℚ → ℚ) (s : TwinState) (inp : StepInput) :
    (runStep gatingSet fmt cosDeg s inp).isSome := by
  by_cases h1 : gatingSet inp.grid ≠ [] ∧
      85 ≤ calculate_confidence (gatingSet inp.grid).length ∧
      s.fire_already_reported = false
  · obtain ⟨q, _, hq⟩ := runStep_fires gatingSet fmt cosDeg s inp h1.1 h1.2.1 h1.2.2
    rw [hq]; rfl
  · rw [runStep_no_fire gatingSet fmt cosDeg s inp h1]; rfl

/-- Once the latch flag is set, the rest of the run changes nothing and fires
no payout on any step. -/
lemma run_simulation_of_reported (gatingSet : Grid → List (Nat × Nat))
    (fmt : ℚ → String) (cosDeg : ℚ → ℚ) (s : TwinState)
    (h : s.fire_already_reported = true) (inputs : List StepInput) :
    run_simulation gatingSet fmt cosDeg s inputs = some (s, inputs.map fun _ => false) := by
  induction inputs with
  | nil => rfl
  | cons inp rest ih =>
    simp [run_simulation, runStep_of_reported gatingSet fmt cosDeg s inp h, ih]

/-- The whole run never reaches the geolocation error branch. -/
lemma run_simulation_isSome (gatingSet : Grid → List (Nat × Nat)) (fmt : ℚ → String)
    (cosDeg : ℚ → ℚ) (s : TwinState) (inputs : List StepInput) :
    (run_simulation gatingSet fmt cosDeg s inputs).isSome := by
  induction inputs generalizing s with
  | nil => rfl
  | cons inp rest ih =>
    have hstep := runStep_isSome gatingSet fmt cosDeg s inp
    obtain ⟨⟨s', fired⟩, hq⟩ := Option.isSome_iff_exists.mp hstep
    have hrest := ih s'
    obtain ⟨⟨sf, log⟩, hr⟩ := Option.isSome_iff_exists.mp hrest
    simp [run_simulation, hq, hr]

/-- Running the loop from a state whose first step fires returns the latched
state and a log of one payout followed by none. -/
lemma run_simulation_fires_first (gatingSet : Grid → List (Nat × Nat))
    (fmt : ℚ → String) (cosDeg : ℚ → ℚ) (s : TwinState) (inp : StepInput)
    (rest : List StepInput) (r : TwinState)
    (hq : runStep gatingSet fmt cosDeg s inp = some (r, true))
    (hr : r.fire_already_reported = true) :
    run_simulation gatingSet fmt cosDeg s (inp :: rest)
      = some (r, true :: rest.map fun _ => false) := by
  rw [run_simulation]
  simp only [hq, run_simulation_of_reported gatingSet fmt cosDeg r hr]

/-- One step preserves the dashboard invariant. -/
lemma runStep_preserves_inv (gatingSet : Grid → List (Nat × Nat)) (fmt : ℚ → String)
    (cosDeg : ℚ → ℚ) (s : TwinState) (inp : StepInput) (s' : TwinState) (b : Bool)
    (hstep : runStep gatingSet fmt cosDeg s inp = some (s', b))
    (hinv : DashboardInv s) : DashboardInv s' := by
  by_cases h1 : gatingSet inp.grid ≠ [] ∧
      85 ≤ calculate_confidence (gatingSet inp.grid).length ∧
      s.fire_already_reported = false
  · obtain ⟨q, _, hq⟩ := runStep_fires gatingSet fmt cosDeg s inp h1.1 h1.2.1 h1.2.2
    rw [hq] at hstep
    obtain ⟨rfl, rfl⟩ := Prod.mk.injEq .. ▸ Option.some.injEq .. ▸ hstep
    simp [DashboardInv, trigger_payout]
  · rw [runStep_no_fire gatingSet fmt cosDeg s inp h1] at hstep
    obtain ⟨rfl, rfl⟩ := Prod.mk.injEq .. ▸ Option.some.injEq .. ▸ hstep
    exact hinv

/-- A run preserves the dashboard invariant. -/
lemma run_simulation_preserves_inv (gatingSet : Grid → List (Nat × Nat))
    (fmt : ℚ → String) (cosDeg : ℚ → ℚ) (s : TwinState) (inputs : List StepInput)
    (sf : TwinState) (log : List Bool)
    (hrun : run_simulation gatingSet fmt cosDeg s inputs = some (sf, log))
    (hinv : DashboardInv s) : DashboardInv sf := by
  induction inputs generalizing s log with
  | nil =>
    rw [run_simulation] at hrun
    obtain ⟨rfl, rfl⟩ := Prod.mk.injEq .. ▸ Option.some.injEq .. ▸ hrun
    exact hinv
  | cons inp rest ih =>
    obtain ⟨⟨s', fired⟩, hq⟩ :=
      Option.isSome_iff_exists.mp (runStep_isSome gatingSet fmt cosDeg s inp)
    obtain ⟨⟨sr, logr⟩, hr⟩ :=
      Option.isSome_iff_exists.mp (run_simulation_isSome gatingSet fmt cosDeg s' rest)
    rw [run_simulation] at hrun
    simp only [hq, hr, Option.some.injEq, Prod.mk.injEq] at hrun
    obtain ⟨h1, h2⟩ := hrun
    subst h1
    exact ih s' logr hr (runStep_preserves_inv gatingSet fmt cosDeg s inp s' fired hq hinv)

/-! Claim theorems. -/

/-- C3: for every anomaly count c, the confidence score equals 0 when c = 0 and
min(95, 60 + 2c) otherwise; consequently it is always at most 95 (and is a
natural number, so at least 0), is monotonically non-decreasing in c, and
equals exactly 95 for every c at least 18. -/
theorem calculate_confidence_spec :
    calculate_confidence 0 = 0
    ∧ (∀ c : Nat, c ≠ 0 → calculate_confidence c = min 95 (60 + 2 * c))
    ∧ (∀ c : Nat, calculate_confidence c ≤ 95)
    ∧ (∀ c d : Nat, c ≤ d → calculate_confidence c ≤ calculate_confidence d)
    ∧ (∀ c : Nat, 18 ≤ c → calculate_confidence c = 95) := by
  refine ⟨rfl, fun c hc => ?_, fun c => ?_, fun c d hcd => ?_, fun c hc => ?_⟩
  · rw [calculate_confidence, if_neg hc]
    omega
  · rw [calculate_confidence]
    split <;> omega
  · rw [calculate_confidence, calculate_confidence]
    split <;> split <;> omega
  · rw [calculate_confidence]
    split <;> omega

/-- C4: for every anomaly count c the area estimator returns
area = c * SENSOR_GSD_M ^ 2 square meters (10000 m² = 1 ha per cell at
gsd = 100); the recovery bucket is a strict-greater-than step function on
hectares, so an area exactly at a boundary (0.5, 2 or 5 ha) resolves to the
lower bucket; for c = 0 it returns area 0 without computing any bucket. -/
theorem analyze_burn_scar_spec :
    (∀ c : Nat, (analyze_burn_scar c).1 = (c : ℚ) * SENSOR_GSD_M ^ 2)
    ∧ analyze_burn_scar 0 = (0, none)
    ∧ (∀ c : Nat, c ≠ 0 → (analyze_burn_scar c).2 =
        some (recovery_estimate ((c : ℚ) * SENSOR_GSD_M ^ 2 / 10000)))
    ∧ (∀ a : ℚ, 5 < a → recovery_estimate a = "Estimated Ecosystem Recovery Time: 4–6 years")
    ∧ (∀ a : ℚ, 2 < a → a ≤ 5 →
        recovery_estimate a = "Estimated Ecosystem Recovery Time: 2–4 years")
    ∧ (∀ a : ℚ, 1/2 < a → a ≤ 2 →
        recovery_estimate a = "Estimated Ecosystem Recovery Time: 1–3 years")
    ∧ (∀ a : ℚ, a ≤ 1/2 → recovery_estimate a = "Estimated Ecosystem Recovery Time: < 1 year")
    ∧ recovery_estimate (1/2) = "Estimated Ecosystem Recovery Time: < 1 year"
    ∧ recovery_estimate 2 = "Estimated Ecosystem Recovery Time: 1–3 years"
    ∧ recovery_estimate 5 = "Estimated Ecosystem Recovery Time: 2–4 years" := by
  have hb5 : ∀ a : ℚ, 5 < a → recovery_estimate a =
      "Estimated Ecosystem Recovery Time: 4–6 years" := by
    intro a h
    rw [recovery_estimate, if_pos h]
  have hb2 : ∀ a : ℚ, 2 < a → a ≤ 5 → recovery_estimate a =
      "Estimated Ecosystem Recovery Time: 2–4 years" := by
    intro a h h5
    rw [recovery_estimate, if_neg (by linarith), if_pos h]
  have hb05 : ∀ a : ℚ, 1/2 < a → a ≤ 2 → recovery_estimate a =
      "Estimated Ecosystem Recovery Time: 1–3 years" := by
    intro a h h2
    rw [recovery_estimate, if_neg (by linarith), if_neg (by linarith), if_pos h]
  have hb0 : ∀ a : ℚ, a ≤ 1/2 → recovery_estimate a =
      "Estimated Ecosystem Recovery Time: < 1 year" := by
    intro a h
    rw [recovery_estimate, if_neg (by linarith), if_neg (by linarith),
      if_neg (by linarith)]
  refine ⟨fun c => ?_, rfl, fun c hc => ?_, hb5, hb2, hb05, hb0,
    hb0 _ le_rfl, hb05 2 (by norm_num) le_rfl, hb2 5 (by norm_num) le_rfl⟩
  · rw [analyze_burn_scar]
    split
    · rename_i h
      subst h
      norm_num
    · rfl
  · simp [analyze_burn_scar, hc]

/-- C5: for every grid and threshold, the anomaly extractor returns exactly the
cells whose temperature strictly exceeds the threshold and whose row and column
both lie in the window [28, 36], inclusive at both ends; cells above threshold
outside that window are silently discarded, and an empty result is valid
(here on the uniform 27 °C grid, with `apply_ai_noise_filter` the instance at
the fixed 45 °C threshold). -/
theorem apply_ai_noise_filter_spec :
    (∀ (grid : Grid) (threshold : ℚ) (y x : Nat),
        (y, x) ∈ extractAnomalies grid threshold ↔
          threshold < grid y x ∧ 28 ≤ x ∧ x ≤ 36 ∧ 28 ≤ y ∧ y ≤ 36)
    ∧ (∀ (grid : Grid) (y x : Nat),
        (y, x) ∈ apply_ai_noise_filter grid ↔
          45 < grid y x ∧ 28 ≤ x ∧ x ≤ 36 ∧ 28 ≤ y ∧ y ≤ 36)
    ∧ apply_ai_noise_filter (fun _ _ => 27) = [] := by
  refine ⟨mem_extractAnomalies,
    fun grid y x => mem_extractAnomalies grid TEMP_THRESHOLD_CELSIUS y x, ?_⟩
  rw [List.eq_nil_iff_forall_not_mem]
  rintro ⟨y, x⟩ hin
  have := (mem_extractAnomalies (fun _ _ => 27) TEMP_THRESHOLD_CELSIUS y x).mp hin
  rw [TEMP_THRESHOLD_CELSIUS] at this
  exact absurd this.1 (by norm_num)

/-- C6: for every non-empty anomaly set whose pixel centroid is exactly the
grid center pixel (32, 32), with sub-point (10, 20) and the fixed 100 m ground
sample distance, the returned location is the sub-point unchanged, whatever
cosine function is supplied: both offsets vanish. -/
theorem compute_fire_location_round_trip
    (pixels : List (Nat × Nat)) (cosDeg : ℚ → ℚ)
    (hne : pixels ≠ [])
    (hcx : (pixels.map fun p => (p.2 : ℚ)).sum / (pixels.length : ℚ) = 32)
    (hcy : (pixels.map fun p => (p.1 : ℚ)).sum / (pixels.length : ℚ) = 32) :
    compute_fire_location pixels 10 20 cosDeg = some (10, 20) := by
  cases pixels with
  | nil => exact absurd rfl hne
  | cons a l =>
    simp only [compute_fire_location]
    rw [hcx, hcy]
    norm_num

/-- Witness for C6 at the one-pixel anomaly set sitting on the grid center. -/
theorem compute_fire_location_round_trip_witness :
    compute_fire_location [(32, 32)] 10 20 (fun _ => 1) = some (10, 20) :=
  compute_fire_location_round_trip [(32, 32)] (fun _ => 1) (by decide)
    (by norm_num) (by norm_num)

/-- C7: the geolocator fails exactly on the empty anomaly set, and under the
simulation loop this error branch is unreachable: a step (and hence a whole
run) never returns the error value, because the loop calls the geolocator only
on a gating set its guard has already checked to be non-empty. -/
theorem geolocation_empty_guarded :
    (∀ (sat_lat sat_lon : ℚ) (cosDeg : ℚ → ℚ),
        compute_fire_location [] sat_lat sat_lon cosDeg = none)
    ∧ (∀ (pixels : List (Nat × Nat)) (sat_lat sat_lon : ℚ) (cosDeg : ℚ → ℚ),
        pixels ≠ [] → ∃ q, compute_fire_location pixels sat_lat sat_lon cosDeg = some q)
    ∧ (∀ (gatingSet : Grid → List (Nat × Nat)) (fmt : ℚ → String) (cosDeg : ℚ → ℚ)
        (s : TwinState) (inp : StepInput),
        runStep gatingSet fmt cosDeg s inp ≠ none)
    ∧ (∀ (gatingSet : Grid → List (Nat × Nat)) (fmt : ℚ → String) (cosDeg : ℚ → ℚ)
        (s : TwinState) (inputs : List StepInput),
        run_simulation gatingSet fmt cosDeg s inputs ≠ none) := by
  refine ⟨fun _ _ _ => rfl,
    fun pixels sat_lat sat_lon cosDeg hne =>
      compute_fire_location_ne_nil hne sat_lat sat_lon cosDeg,
    fun gatingSet fmt cosDeg s inp =>
      Option.isSome_iff_ne_none.mp (runStep_isSome gatingSet fmt cosDeg s inp),
    fun gatingSet fmt cosDeg s inputs =>
      Option.isSome_iff_ne_none.mp (run_simulation_isSome gatingSet fmt cosDeg s inputs)⟩

/-- C1: the trigger controller is a one-shot latch. A step fires the payout
exactly when the gating anomaly set is non-empty, the computed confidence is at
least 85 and the latch flag is still false; on that transition the geolocation
is computed, the detection result is published through `trigger_payout` and the
flag becomes true; and from any latched state, every later step of the run
fires no payout and leaves the state, flag included, unchanged. -/
theorem trigger_one_shot :
    (∀ (gatingSet : Grid → List (Nat × Nat)) (fmt : ℚ → String) (cosDeg : ℚ → ℚ)
        (s : TwinState) (inp : StepInput),
        (∃ r, runStep gatingSet fmt cosDeg s inp = some (r, true)) ↔
          gatingSet inp.grid ≠ [] ∧
          85 ≤ calculate_confidence (gatingSet inp.grid).length ∧
          s.fire_already_reported = false)
    ∧ (∀ (gatingSet : Grid → List (Nat × Nat)) (fmt : ℚ → String) (cosDeg : ℚ → ℚ)
        (s : TwinState) (inp : StepInput) (r : TwinState),
        runStep gatingSet fmt cosDeg s inp = some (r, true) →
          r.fire_already_reported = true ∧
          ∃ q, compute_fire_location (gatingSet inp.grid) inp.sat_lat inp.sat_lon cosDeg
                = some q ∧
              r.dashboard = trigger_payout fmt q.1 q.2
                (calculate_confidence (gatingSet inp.grid).length))
    ∧ (∀ (gatingSet : Grid → List (Nat × Nat)) (fmt : ℚ → String) (cosDeg : ℚ → ℚ)
        (s : TwinState) (inputs : List StepInput),
        s.fire_already_reported = true →
          run_simulation gatingSet fmt cosDeg s inputs
            = some (s, inputs.map fun _ => false)) := by
  refine ⟨fun gatingSet fmt cosDeg s inp => ⟨fun ⟨r, hr⟩ => ?_, fun hcond => ?_⟩,
    fun gatingSet fmt cosDeg s inp r hr => ?_,
    fun gatingSet fmt cosDeg s inputs h =>
      run_simulation_of_reported gatingSet fmt cosDeg s h inputs⟩
  · by_contra hcond
    rw [runStep_no_fire gatingSet fmt cosDeg s inp hcond] at hr
    simp at hr
  · obtain ⟨q, _, hq⟩ :=
      runStep_fires gatingSet fmt cosDeg s inp hcond.1 hcond.2.1 hcond.2.2
    exact ⟨_, hq⟩
  · by_cases hcond : gatingSet inp.grid ≠ [] ∧
        85 ≤ calculate_confidence (gatingSet inp.grid).length ∧
        s.fire_already_reported = false
    · obtain ⟨q, hloc, hq⟩ :=
        runStep_fires gatingSet fmt cosDeg s inp hcond.1 hcond.2.1 hcond.2.2
      rw [hq] at hr
      simp only [Option.some.injEq, Prod.mk.injEq] at hr
      rw [← hr.1]
      exact ⟨rfl, q, hloc, rfl⟩
    · rw [runStep_no_fire gatingSet fmt cosDeg s inp hcond] at hr
      simp at hr

set_option maxRecDepth 10000 in
/-- C2: the two source variants diverge on which predicate gates the payout.
The windowed set used by the first variant holds the cells above 45 °C
restricted to the [28, 36] window, the unwindowed set used by the second holds
every in-range cell strictly above the 55 °C fire threshold, and on
`divergence_grid` the first variant does not trigger while the second does. -/
theorem variant_gating_divergence :
    (∀ (grid : Grid) (y x : Nat),
        (y, x) ∈ trigger_eligible_pixels grid ↔ y < 64 ∧ x < 64 ∧ 55 < grid y x)
    ∧ apply_ai_noise_filter divergence_grid = []
    ∧ (trigger_eligible_pixels divergence_grid).length = 13
    ∧ (∀ (fmt : ℚ → String) (cosDeg : ℚ → ℚ) (la lo : ℚ),
        (runStepV1 fmt cosDeg initialState ⟨divergence_grid, la, lo⟩).map Prod.snd
          = some false
        ∧ (runStepV2 fmt cosDeg initialState ⟨divergence_grid, la, lo⟩).map Prod.snd
          = some true) := by
  have hlen : (trigger_eligible_pixels divergence_grid).length = 13 := by decide
  have hempty : apply_ai_noise_filter divergence_grid = [] := by
    rw [List.eq_nil_iff_forall_not_mem]
    rintro ⟨y, x⟩ hin
    obtain ⟨hg, h1, _, _, _⟩ :=
      (mem_extractAnomalies divergence_grid TEMP_THRESHOLD_CELSIUS y x).mp hin
    rw [show divergence_grid y x = 27 by
          rw [divergence_grid, if_neg]
          rintro ⟨hx0, _⟩
          omega,
        TEMP_THRESHOLD_CELSIUS] at hg
    exact absurd hg (by norm_num)
  refine ⟨fun grid y x => ?_, hempty, hlen, fun fmt cosDeg la lo => ⟨?_, ?_⟩⟩
  · rw [trigger_eligible_pixels]
    simp only [List.mem_filter, mem_allCells, decide_eq_true_eq, fire_threshold_temp]
    constructor
    · rintro ⟨⟨hy, hx⟩, hg⟩
      exact ⟨hy, hx, hg⟩
    · rintro ⟨hy, hx, hg⟩
      exact ⟨⟨hy, hx⟩, hg⟩
  · rw [runStepV1, runStep_no_fire apply_ai_noise_filter fmt cosDeg initialState
        ⟨divergence_grid, la, lo⟩ (by rintro ⟨hne, _, _⟩; exact hne hempty)]
    rfl
  · have hne : trigger_eligible_pixels divergence_grid ≠ [] := by
      intro h
      rw [h] at hlen
      simp at hlen
    have hconf : 85 ≤ calculate_confidence (trigger_eligible_pixels divergence_grid).length := by
      rw [hlen]
      norm_num [calculate_confidence]
    obtain ⟨q, _, hq⟩ := runStep_fires trigger_eligible_pixels fmt cosDeg initialState
      ⟨divergence_grid, la, lo⟩ hne hconf rfl
    rw [runStepV2, hq]
    rfl

set_option maxRecDepth 10000 in
/-- C8: on the end-to-end grid (8x8 block at 60 °C, 27 °C baseline) the
extractor returns exactly 64 cells, the confidence is min(95, 60 + 2*64) = 95,
and a 10-step run of the first variant fires the trigger exactly once, on the
first step, publishing confidence "95%" with the payout executed. -/
theorem end_to_end_scenario :
    (apply_ai_noise_filter end_to_end_grid).length = 64
    ∧ calculate_confidence (apply_ai_noise_filter end_to_end_grid).length = 95
    ∧ (∀ (fmt : ℚ → String) (cosDeg : ℚ → ℚ) (sat_lat sat_lon : ℚ), ∃ s,
        run_simulation apply_ai_noise_filter fmt cosDeg initialState
            (List.replicate 10 ⟨end_to_end_grid, sat_lat, sat_lon⟩)
          = some (s, true :: List.replicate 9 false)
        ∧ s.fire_already_reported = true
        ∧ s.dashboard.confidence = "95%"
        ∧ s.dashboard.payout_status = "Executed") := by
  have h64 : (apply_ai_noise_filter end_to_end_grid).length = 64 := by decide
  have hconf : calculate_confidence (apply_ai_noise_filter end_to_end_grid).length = 95 := by
    rw [h64]
    decide
  refine ⟨h64, hconf, fun fmt cosDeg sat_lat sat_lon => ?_⟩
  have hne : apply_ai_noise_filter end_to_end_grid ≠ [] := by
    intro h
    rw [h] at h64
    simp at h64
  have hproj : (⟨end_to_end_grid, sat_lat, sat_lon⟩ : StepInput).grid = end_to_end_grid := rfl
  obtain ⟨q, _, hq⟩ := runStep_fires apply_ai_noise_filter fmt cosDeg initialState
      ⟨end_to_end_grid, sat_lat, sat_lon⟩ (by rw [hproj]; exact hne)
      (by rw [hproj, hconf]; norm_num) rfl
  rw [hproj, hconf] at hq
  have hrun : run_simulation apply_ai_noise_filter fmt cosDeg initialState
      (List.replicate 10 ⟨end_to_end_grid, sat_lat, sat_lon⟩)
      = some ({ fire_already_reported := true
                dashboard := trigger_payout fmt q.1 q.2 95 },
          true :: List.replicate 9 false) := by
    rw [show List.replicate 10 (⟨end_to_end_grid, sat_lat, sat_lon⟩ : StepInput)
          = ⟨end_to_end_grid, sat_lat, sat_lon⟩
            :: List.replicate 9 ⟨end_to_end_grid, sat_lat, sat_lon⟩ from rfl,
      run_simulation_fires_first apply_ai_noise_filter fmt cosDeg initialState _ _ _ hq rfl,
      List.map_replicate]
  exact ⟨_, hrun, rfl, rfl, rfl⟩

/-- C9: whenever a step of the loop invokes `trigger_payout`, the gating pixel
set holds at least 13 cells, and the confidence passed on lies in {86, 88, 90,
92, 94, 95}; in particular it is always strictly greater than the 85
threshold, since 85 itself is not an achievable score. -/
theorem trigger_confidence_bounds (gatingSet : Grid → List (Nat × Nat))
    (fmt : ℚ → String) (cosDeg : ℚ → ℚ) (s : TwinState) (inp : StepInput)
    (h : (runStep gatingSet fmt cosDeg s inp).map Prod.snd = some true) :
    13 ≤ (gatingSet inp.grid).length
    ∧ 85 < calculate_confidence (gatingSet inp.grid).length
    ∧ (calculate_confidence (gatingSet inp.grid).length = 86
       ∨ calculate_confidence (gatingSet inp.grid).length = 88
       ∨ calculate_confidence (gatingSet inp.grid).length = 90
       ∨ calculate_confidence (gatingSet inp.grid).length = 92
       ∨ calculate_confidence (gatingSet inp.grid).length = 94
       ∨ calculate_confidence (gatingSet inp.grid).length = 95) := by
  by_cases hcond : gatingSet inp.grid ≠ [] ∧
      85 ≤ calculate_confidence (gatingSet inp.grid).length ∧
      s.fire_already_reported = false
  · have hlen : (gatingSet inp.grid).length ≠ 0 := by
      intro h0
      exact hcond.1 (List.length_eq_zero.mp h0)
    have h85 := hcond.2.1
    rw [calculate_confidence, if_neg hlen] at h85
    rw [calculate_confidence, if_neg hlen]
    omega
  · rw [runStep_no_fire gatingSet fmt cosDeg s inp hcond] at h
    simp at h

/-- Witness for C9: a gating set of 13 pixels fires with confidence 86. -/
theorem trigger_confidence_bounds_witness :
    13 ≤ (witness_gate witness_input.grid).length
    ∧ 85 < calculate_confidence (witness_gate witness_input.grid).length
    ∧ (calculate_confidence (witness_gate witness_input.grid).length = 86
       ∨ calculate_confidence (witness_gate witness_input.grid).length = 88
       ∨ calculate_confidence (witness_gate witness_input.grid).length = 90
       ∨ calculate_confidence (witness_gate witness_input.grid).length = 92
       ∨ calculate_confidence (witness_gate witness_input.grid).length = 94
       ∨ calculate_confidence (witness_gate witness_input.grid).length = 95) :=
  trigger_confidence_bounds witness_gate (fun _ => "") (fun _ => 1) initialState
    witness_input (by decide)

/-- C10: the published dashboard is mutated only by `trigger_payout`, which
sets all fields together, so in every state reachable by a run the dashboard
has fire_detected true exactly when payout_status is "Executed", and before
the first trigger it keeps all its initial no-detection values. -/
theorem dashboard_payout_invariant (gatingSet : Grid → List (Nat × Nat))
    (fmt : ℚ → String) (cosDeg : ℚ → ℚ) (inputs : List StepInput)
    (s : TwinState) (log : List Bool)
    (h : run_simulation gatingSet fmt cosDeg initialState inputs = some (s, log)) :
    (s.dashboard.fire_detected = true ↔ s.dashboard.payout_status = "Executed")
    ∧ (s.fire_already_reported = false → s.dashboard = initial_dashboard_state) :=
  run_simulation_preserves_inv gatingSet fmt cosDeg initialState inputs s log h
    (by unfold DashboardInv; decide)

/-- Witness for C10 at the empty run, whose final state is the initial one. -/
theorem dashboard_payout_invariant_witness :
    (initialState.dashboard.fire_detected = true
      ↔ initialState.dashboard.payout_status = "Executed")
    ∧ (initialState.fire_already_reported = false
        → initialState.dashboard = initial_dashboard_state) :=
  dashboard_payout_invariant (fun _ => []) (fun _ => "") (fun _ => 1) []
    initialState [] rfl

end WildfireWatch
